import Mathlib

/-!
Shallow embedding of the TCG (Trusted Computing Group) TPM 2.0 protocol
binding from src/uefi/src/proto/tcg/v2.rs, together with theorems settling
the specification claims about it.

The file embeds:
 * the data model (Version, the bitmap widths, BootServiceCapability and
   its Default construction and tpm_present predicate);
 * the wire layout of the repr(C) structures, with a generic C struct
   layout calculator used to reproduce mem::size_of;
 * the four safe wrapper methods of impl Tcg, each parameterised by the
   reply of the underlying firmware entry point (status plus the values
   the firmware wrote through the out-pointers);
 * the response-code classification documented on
   get_result_of_set_active_pcr_banks;
 * a model, taken from the specification, of the firmware-side staged
   PCR-bank reconfiguration (the firmware itself is an external
   collaborator, not code of this crate).
-/

namespace Tcg2

/-! ## Version (v2.rs lines 23-30) -/

/-- Version as declared in the source: repr(C) struct with two u8 fields,
major first, minor second. Field values are Nat in the embedding; the wire
widths are recorded separately in the layout definitions below. -/
structure Version where
  major : Nat
  minor : Nat
  deriving DecidableEq, Repr

/-- Comparison of two u8 values, as used by the Rust derived Ord:
less, equal or greater. -/
def u8_cmp (a b : Nat) : Ordering :=
  if a < b then Ordering.lt else if a = b then Ordering.eq else Ordering.gt

/-- Sequencing of comparisons as in the Rust derived Ord: the second
comparison is consulted only when the first is equality. -/
def orderingThen : Ordering → Ordering → Ordering
  | Ordering.eq, o => o
  | o, _ => o

/-- The derived Ord of Version: Rust derives field-by-field comparison in
declaration order, so major is compared first and minor breaks ties. -/
def Version.cmp (a b : Version) : Ordering :=
  orderingThen (u8_cmp a.major b.major) (u8_cmp a.minor b.minor)

/-- The strict order induced by the derived Ord of Version. -/
def Version.lt (a b : Version) : Prop := Version.cmp a b = Ordering.lt

instance (a b : Version) : Decidable (Version.lt a b) := by
  unfold Version.lt; infer_instance

/-! ## Wire layout (v2.rs lines 23-30, 32-45, 50-90, 121-132) -/

/-- Wire fields of Version, in declaration order, with widths in bits:
major then minor, 8 bits each. -/
def versionWireFields : List (String × Nat) :=
  [("major", 8), ("minor", 8)]

/-- Modelled from the spec: the HashAlgorithm bitmap is declared in the
sibling tcg module, which is not part of the sources here; the spec fixes
it as a 32-bit hash-algorithm bitmap. -/
def hashAlgorithmBits : Nat := 32

/-- EventLogFormat is a repr(transparent) bitflags struct over u32. -/
def eventLogFormatBits : Nat := 32

/-- HashLogExtendEventFlags is a repr(transparent) bitflags struct over
u64 in the source (v2.rs line 125). -/
def hashLogExtendEventFlagsBits : Nat := 64

/-- Widths of every flag bitmap appearing in the interface: the
hash-algorithm bitmap, the event-log-format bitmap, and the
hash-log-extend-event flag bitmap. -/
def interfaceFlagBitmapBits : List Nat :=
  [hashAlgorithmBits, eventLogFormatBits, hashLogExtendEventFlagsBits]

/-- Wire fields of BootServiceCapability in declaration order, widths in
bits: leading self-describing size byte, two 16-bit version pairs, two
32-bit bitmaps, the presence byte, two 16-bit maxima, two 32-bit counters
and a final 32-bit bitmap. -/
def bootServiceCapabilityWireFields : List (String × Nat) :=
  [ ("size", 8)
  , ("structure_version", 16)
  , ("protocol_version", 16)
  , ("hash_algorithm_bitmap", 32)
  , ("supported_event_logs", 32)
  , ("present_flag", 8)
  , ("max_command_size", 16)
  , ("max_response_size", 16)
  , ("manufacturer_id", 32)
  , ("number_of_pcr_banks", 32)
  , ("active_pcr_banks", 32) ]

/-- One field of a repr(C) struct layout: its size and alignment in
bytes. -/
structure CLayoutField where
  byteSize : Nat
  byteAlign : Nat
  deriving DecidableEq, Repr

/-- Round off up to the next multiple of a. -/
def alignUp (off a : Nat) : Nat := ((off + a - 1) / a) * a

/-- Size in bytes of a repr(C) struct with the given fields: each field is
placed at the next offset aligned to its alignment, and the total is
rounded up to the struct alignment (the maximum field alignment). This is
the C layout rule that mem::size_of follows for repr(C) types. -/
def reprCSize (fields : List CLayoutField) : Nat :=
  alignUp (fields.foldl (fun off f => alignUp off f.byteAlign + f.byteSize) 0)
    (fields.foldl (fun m f => max m f.byteAlign) 1)

/-- Byte sizes and alignments of the BootServiceCapability fields in
declaration order: u8; Version (two u8, size 2 align 1) twice; two u32
bitmaps; u8; two u16; two u32; a u32 bitmap. -/
def bootServiceCapabilityLayout : List CLayoutField :=
  [ ⟨1, 1⟩, ⟨2, 1⟩, ⟨2, 1⟩, ⟨4, 4⟩, ⟨4, 4⟩, ⟨1, 1⟩
  , ⟨2, 2⟩, ⟨2, 2⟩, ⟨4, 4⟩, ⟨4, 4⟩, ⟨4, 4⟩ ]

/-- mem::size_of::<BootServiceCapability>() as computed by the repr(C)
layout rules. -/
def size_of_BootServiceCapability : Nat :=
  reprCSize bootServiceCapabilityLayout

/-! ## BootServiceCapability (v2.rs lines 50-119) -/

/-- BootServiceCapability as declared in the source, field for field in
declaration order. Bitmap fields are Nat in the embedding; their wire
widths are recorded in the layout definitions. -/
structure BootServiceCapability where
  size : Nat
  structure_version : Version
  protocol_version : Version
  hash_algorithm_bitmap : Nat
  supported_event_logs : Nat
  present_flag : Nat
  max_command_size : Nat
  max_response_size : Nat
  manufacturer_id : Nat
  number_of_pcr_banks : Nat
  active_pcr_banks : Nat
  deriving DecidableEq, Repr

/-- u8::try_from on a usize value: succeeds exactly when the value fits in
eight bits. -/
def u8_try_from (n : Nat) : Option Nat :=
  if n < 256 then some n else none

/-- The Default impl of BootServiceCapability (v2.rs lines 92-111): the
size field is u8::try_from of the struct size (an unwrap in the source,
embedded as Option so the fallibility is visible), every other field is
zero / default. -/
def BootServiceCapability.default : Option BootServiceCapability :=
  (u8_try_from size_of_BootServiceCapability).map fun struct_size =>
    { size := struct_size
    , structure_version := { major := 0, minor := 0 }
    , protocol_version := { major := 0, minor := 0 }
    , hash_algorithm_bitmap := 0
    , supported_event_logs := 0
    , present_flag := 0
    , max_command_size := 0
    , max_response_size := 0
    , manufacturer_id := 0
    , number_of_pcr_banks := 0
    , active_pcr_banks := 0 }

/-- tpm_present (v2.rs lines 116-118): whether the TPM device is present,
true exactly when the present_flag field is nonzero. -/
def BootServiceCapability.tpm_present (c : BootServiceCapability) : Bool :=
  c.present_flag != 0

/-! ## Response-code classification (v2.rs lines 211-219)

The wrapper surfaces the raw u32 response code; its doc comment documents
the classification of that code, reproduced here as a total function. -/

/-- Outcome classes of the response code of a prior set_active_pcr_banks
attempt, as documented on get_result_of_set_active_pcr_banks, plus a
distinct class carrying any code outside the documented ranges. -/
inductive ResponseCodeClass where
  | success
  | tpmError
  | cancelledOrTimedOut
  | firmwareError
  | unrecognized (code : Nat)
  deriving DecidableEq, Repr

/-- Classification of a response code per the documented ranges:
0 is success, 1 through 0xFFF is a TPM error code, 0xFFFFFFF0 is
cancelled-or-timed-out, 0xFFFFFFF1 is a firmware error, and anything else
is carried unmapped in the unrecognized class. -/
def classify_response_code (c : Nat) : ResponseCodeClass :=
  if c = 0 then ResponseCodeClass.success
  else if c ≤ 0xFFF then ResponseCodeClass.tpmError
  else if c = 0xFFFFFFF0 then ResponseCodeClass.cancelledOrTimedOut
  else if c = 0xFFFFFFF1 then ResponseCodeClass.firmwareError
  else ResponseCodeClass.unrecognized c

/-! ## Status translation (uefi Status / into_with_val, external to this file) -/

/-- Modelled from the spec: the generic firmware status-code type and its
success/error taxonomy are an external collaborator (spec section 1);
embedded as a numeric code whose zero value is success. -/
def statusSuccess : Nat := 0

/-- Modelled from the spec: status translation into this core's result
channel — a success status yields a fully populated Ok value, any other
status is surfaced as an error, as the uefi crate's into_with_val does. -/
def into_with_val {α : Type} (status : Nat) (v : α) : Except Nat α :=
  if status = statusSuccess then Except.ok v else Except.error status

/-! ## Safe wrappers of impl Tcg (v2.rs lines 187-236)

Each wrapper is embedded as a function of the reply of the underlying
firmware entry point: the status it returned and the values it wrote
through the out-pointers. -/

/-- Reply of the get_capability entry point: the returned status and the
capability the firmware wrote into the caller's buffer. -/
structure GetCapabilityReply where
  status : Nat
  written : BootServiceCapability

/-- get_capability wrapper (v2.rs lines 189-192): passes a default-built
buffer to the entry point and returns the buffer contents on success. -/
def Tcg.get_capability (r : GetCapabilityReply) : Except Nat BootServiceCapability :=
  into_with_val r.status r.written

/-- Reply of the get_active_pcr_banks entry point: the returned status and
the bank bitmap the firmware wrote. -/
structure GetActiveBanksReply where
  status : Nat
  written : Nat

/-- get_active_pcr_banks wrapper (v2.rs lines 196-202): returns the bitmap
the firmware wrote on success. -/
def Tcg.get_active_pcr_banks (r : GetActiveBanksReply) : Except Nat Nat :=
  into_with_val r.status r.written

/-- set_active_pcr_banks wrapper (v2.rs lines 207-209): forwards the
requested bitmap to the entry point and translates the status. The
requested bitmap does not influence the wrapper's own result. -/
def Tcg.set_active_pcr_banks (_requested : Nat) (status : Nat) : Except Nat Unit :=
  into_with_val status ()

/-- Reply of the get_result_of_set_active_pcr_banks entry point: the
returned status and the two u32 values the firmware wrote through the
operation_present and response out-pointers. -/
structure SetBanksResultReply where
  status : Nat
  operation_present : Nat
  response : Nat

/-- get_result_of_set_active_pcr_banks wrapper (v2.rs lines 220-235): on a
success status, yields none when operation_present is zero and some of the
raw response code otherwise. -/
def Tcg.get_result_of_set_active_pcr_banks (r : SetBanksResultReply) :
    Except Nat (Option Nat) :=
  into_with_val r.status
    (if r.operation_present = 0 then none else some r.response)

/-! ## API surface (v2.rs lines 140-185 and 187-236) -/

/-- The seven entry points of the Tcg function-pointer table, in
declaration order. -/
def tcgEntryPoints : List String :=
  [ "get_capability", "get_event_log", "hash_log_extend_event"
  , "submit_command", "get_active_pcr_banks", "set_active_pcr_banks"
  , "get_result_of_set_active_pcr_banks" ]

/-- The public safe methods of impl Tcg, in declaration order. -/
def tcgExposedOperations : List String :=
  [ "get_capability", "get_active_pcr_banks", "set_active_pcr_banks"
  , "get_result_of_set_active_pcr_banks" ]

/-- The entry points each safe method invokes, read off its body: each of
the four wrappers performs exactly one call, to the entry point of the
same name; no other name is a safe method. -/
def wrapperEntryPoints : String → List String
  | "get_capability" => ["get_capability"]
  | "get_active_pcr_banks" => ["get_active_pcr_banks"]
  | "set_active_pcr_banks" => ["set_active_pcr_banks"]
  | "get_result_of_set_active_pcr_banks" => ["get_result_of_set_active_pcr_banks"]
  | _ => []

/-! ## Firmware-side staged reconfiguration (modelled from the spec) -/

/-- Modelled from the spec: the firmware/module state relevant to PCR-bank
reconfiguration — the currently active bank bitmap and, when a
set_active_pcr_banks request has been staged, the requested bitmap
together with the number of reboot cycles still needed before it takes
effect. The firmware is an external collaborator; the crate's wrapper only
forwards the request. -/
structure TcgModuleState where
  active : Nat
  pending : Option (Nat × Nat)
  deriving DecidableEq, Repr

/-- Modelled from the spec: a successful set_active_pcr_banks stages the
requested bitmap, to become effective only after two reboot cycles; the
active set is untouched. -/
def moduleSetActivePcrBanks (requested : Nat) (s : TcgModuleState) : TcgModuleState :=
  { active := s.active, pending := some (requested, 2) }

/-- Modelled from the spec: one reboot cycle — a staged request needing
one more cycle becomes the active set, a request needing more cycles
counts down, and without a staged request nothing changes. -/
def moduleReboot (s : TcgModuleState) : TcgModuleState :=
  match s.pending with
  | none => s
  | some (r, n) =>
      if n ≤ 1 then { active := r, pending := none }
      else { active := s.active, pending := some (r, n - 1) }

/-- Modelled from the spec: get_active_pcr_banks reads the currently
active bank bitmap and does not mutate module state. -/
def moduleGetActivePcrBanks (s : TcgModuleState) : Nat := s.active

/-! ## Theorems -/

/-- Claim C1: the response code of get_result_of_set_active_pcr_banks is
classified into exactly four named outcomes plus a distinct
unrecognized-code outcome: 0 is success, 1 through 0xFFF is TPM error,
0xFFFFFFF0 is cancelled/timeout, 0xFFFFFFF1 is firmware error, and every
other code lands in the unrecognized class carrying the code itself,
mapped to none of the four. -/
theorem response_code_classification (c : Nat) :
    (classify_response_code c = ResponseCodeClass.success ↔ c = 0) ∧
    (classify_response_code c = ResponseCodeClass.tpmError ↔ 1 ≤ c ∧ c ≤ 0xFFF) ∧
    (classify_response_code c = ResponseCodeClass.cancelledOrTimedOut ↔ c = 0xFFFFFFF0) ∧
    (classify_response_code c = ResponseCodeClass.firmwareError ↔ c = 0xFFFFFFF1) ∧
    (classify_response_code c = ResponseCodeClass.unrecognized c ↔
      ¬(c = 0 ∨ (1 ≤ c ∧ c ≤ 0xFFF) ∨ c = 0xFFFFFFF0 ∨ c = 0xFFFFFFF1)) := by
  unfold classify_response_code
  split_ifs <;> simp_all [Nat.one_le_iff_ne_zero]
  omega

/-- Claim C2: when the underlying entry point reports success, the wrapper
returns none exactly when the firmware wrote operation_present = 0, and
some of the firmware-written response code exactly when operation_present
is nonzero; the response value is never surfaced when operation_present is
zero. -/
theorem get_result_wrapper_presence (r : SetBanksResultReply)
    (h : r.status = statusSuccess) :
    (Tcg.get_result_of_set_active_pcr_banks r = Except.ok none ↔
      r.operation_present = 0) ∧
    (Tcg.get_result_of_set_active_pcr_banks r = Except.ok (some r.response) ↔
      r.operation_present ≠ 0) := by
  unfold Tcg.get_result_of_set_active_pcr_banks into_with_val
  rw [h]
  by_cases hp : r.operation_present = 0 <;> simp [hp]

/-- Witness for claim C2 at a concrete reply: status success, an
operation on record with response code 7. -/
theorem get_result_wrapper_presence_witness :
    Tcg.get_result_of_set_active_pcr_banks ⟨0, 1, 7⟩ = Except.ok (some 7) := by
  have h := get_result_wrapper_presence ⟨0, 1, 7⟩ rfl
  exact h.2.mpr (by decide)

/-- Claim C3: in the firmware model of staged reconfiguration, after a
successful set_active_pcr_banks the active bank set read back by
get_active_pcr_banks is the set that was current before the call, both in
the same boot session and after a single reboot: the requested set is not
observable before two reboot cycles have completed. -/
theorem set_active_pcr_banks_staged (s : TcgModuleState) (r k : Nat)
    (hk : k ≤ 1) :
    moduleGetActivePcrBanks (moduleReboot^[k] (moduleSetActivePcrBanks r s)) =
      moduleGetActivePcrBanks s := by
  interval_cases k
  · rfl
  · simp [moduleSetActivePcrBanks, moduleReboot, moduleGetActivePcrBanks]

/-- Witness for claim C3 at a concrete state: active bitmap 5, request 3,
one reboot cycle; the active set is still 5. -/
theorem set_active_pcr_banks_staged_witness :
    moduleGetActivePcrBanks
      (moduleReboot^[1] (moduleSetActivePcrBanks 3 ⟨5, none⟩)) = 5 := by
  have h := set_active_pcr_banks_staged ⟨5, none⟩ 3 1 (by decide)
  simpa using h

/-- Counterexample to claim C4 as stated: not every flag bitmap appearing
in the interface is 32-bit — the hash-log-extend-event flag bitmap is
declared over u64. -/
theorem flag_bitmap_not_all_32bit :
    ¬(∀ w ∈ interfaceFlagBitmapBits, w = 32) := by decide

/-- Claim C4 amended: the wire representations have the stated field
widths and order — Version is two 8-bit fields, major then minor; the
hash-algorithm and event-log-format bitmaps are 32-bit while the
hash-log-extend-event flag bitmap is 64-bit; BootServiceCapability begins
with an 8-bit self-describing size field and contains 16-bit
max_command_size and max_response_size and 32-bit manufacturer_id and
number_of_pcr_banks, in the declared order; and the byte layout used for
the size computation agrees field-by-field with these bit widths. -/
theorem wire_layout_widths :
    versionWireFields = [("major", 8), ("minor", 8)] ∧
    hashAlgorithmBits = 32 ∧
    eventLogFormatBits = 32 ∧
    hashLogExtendEventFlagsBits = 64 ∧
    bootServiceCapabilityWireFields =
      [ ("size", 8), ("structure_version", 16), ("protocol_version", 16)
      , ("hash_algorithm_bitmap", 32), ("supported_event_logs", 32)
      , ("present_flag", 8), ("max_command_size", 16), ("max_response_size", 16)
      , ("manufacturer_id", 32), ("number_of_pcr_banks", 32)
      , ("active_pcr_banks", 32) ] ∧
    bootServiceCapabilityLayout.map CLayoutField.byteSize =
      bootServiceCapabilityWireFields.map (fun f => f.2 / 8) := by
  refine ⟨rfl, rfl, rfl, rfl, rfl, ?_⟩
  decide

/-- Counterexample to claim C5 as stated: the public API surface of the
binding is not six operations — impl Tcg exposes four safe methods. -/
theorem api_surface_not_six : tcgExposedOperations.length ≠ 6 := by decide

/-- Claim C5 amended: the public API surface consists of exactly four
operations — capability query, active-PCR-bank get, active-PCR-bank set
and reconfiguration-result retrieval — each mapping 1:1 onto the single
underlying entry point of the same name in the function table; the log
retrieval, hash-extend-and-log and raw-command entry points are present in
the table but not exposed as safe operations. -/
theorem api_surface_four_operations :
    tcgExposedOperations.length = 4 ∧
    tcgExposedOperations.Nodup ∧
    (∀ op ∈ tcgExposedOperations,
      op ∈ tcgEntryPoints ∧ wrapperEntryPoints op = [op]) ∧
    "get_event_log" ∉ tcgExposedOperations ∧
    "hash_log_extend_event" ∉ tcgExposedOperations ∧
    "submit_command" ∉ tcgExposedOperations := by decide

/-- Claim C6: every exposed operation is atomic at its result boundary —
for each of the four wrappers, a success status from the entry point
yields a fully populated Ok value and any other status yields an error
carrying no partial value. -/
theorem wrappers_atomic_result
    (rc : GetCapabilityReply) (ra : GetActiveBanksReply)
    (req ss : Nat) (rr : SetBanksResultReply) :
    (rc.status = statusSuccess → Tcg.get_capability rc = Except.ok rc.written) ∧
    (rc.status ≠ statusSuccess → Tcg.get_capability rc = Except.error rc.status) ∧
    (ra.status = statusSuccess → Tcg.get_active_pcr_banks ra = Except.ok ra.written) ∧
    (ra.status ≠ statusSuccess → Tcg.get_active_pcr_banks ra = Except.error ra.status) ∧
    (ss = statusSuccess → Tcg.set_active_pcr_banks req ss = Except.ok ()) ∧
    (ss ≠ statusSuccess → Tcg.set_active_pcr_banks req ss = Except.error ss) ∧
    (rr.status = statusSuccess →
      ∃ v, Tcg.get_result_of_set_active_pcr_banks rr = Except.ok v) ∧
    (rr.status ≠ statusSuccess →
      Tcg.get_result_of_set_active_pcr_banks rr = Except.error rr.status) := by
  unfold Tcg.get_capability Tcg.get_active_pcr_banks Tcg.set_active_pcr_banks
    Tcg.get_result_of_set_active_pcr_banks into_with_val
  refine ⟨?_, ?_, ?_, ?_, ?_, ?_, ?_, ?_⟩ <;> intro h <;> simp [h]

/-- Witness for claim C6 at concrete replies: a successful capability
query returns the written capability, and a failed set returns the error
status. -/
theorem wrappers_atomic_result_witness :
    Tcg.get_capability ⟨0, ⟨36, ⟨1, 1⟩, ⟨1, 0⟩, 3, 3, 1, 4096, 4096, 0, 2, 3⟩⟩ =
      Except.ok ⟨36, ⟨1, 1⟩, ⟨1, 0⟩, 3, 3, 1, 4096, 4096, 0, 2, 3⟩ ∧
    Tcg.set_active_pcr_banks 3 21 = Except.error 21 := by
  have h := wrappers_atomic_result
    ⟨0, ⟨36, ⟨1, 1⟩, ⟨1, 0⟩, 3, 3, 1, 4096, 4096, 0, 2, 3⟩⟩ ⟨0, 0⟩ 3 21 ⟨0, 0, 0⟩
  exact ⟨h.1 rfl, h.2.2.2.2.2.1 (by decide)⟩

/-- Claim C7: the default-built BootServiceCapability has its presence
flag cleared (the presence predicate is false on it) and its
self-describing size field equal to the structure's own encoded size. -/
theorem default_capability_absent_and_sized :
    ∃ c, BootServiceCapability.default = some c ∧
      c.tpm_present = false ∧
      c.size = size_of_BootServiceCapability := by
  refine ⟨⟨36, ⟨0, 0⟩, ⟨0, 0⟩, 0, 0, 0, 0, 0, 0, 0, 0⟩, ?_, ?_, ?_⟩ <;> decide

/-- Claim C8: for every BootServiceCapability value, tpm_present is true
exactly when the present_flag field is nonzero. -/
theorem tpm_present_iff_flag_nonzero (c : BootServiceCapability) :
    c.tpm_present = true ↔ c.present_flag ≠ 0 := by
  unfold BootServiceCapability.tpm_present
  simp

/-- Claim C9: the derived order on Version is lexicographic on
(major, minor): a is below b exactly when a.major is below b.major, or the
majors agree and a.minor is below b.minor. -/
theorem version_lt_lexicographic (a b : Version) :
    Version.lt a b ↔
      a.major < b.major ∨ (a.major = b.major ∧ a.minor < b.minor) := by
  unfold Version.lt Version.cmp u8_cmp
  split_ifs <;> simp_all [orderingThen]

/-- Claim C10: the u8::try_from conversion inside the Default impl of
BootServiceCapability always succeeds, because the encoded size of the
structure is at most 255 bytes; hence default-construction is total. -/
theorem default_capability_total :
    size_of_BootServiceCapability ≤ 255 ∧
    u8_try_from size_of_BootServiceCapability =
      some size_of_BootServiceCapability ∧
    (BootServiceCapability.default).isSome = true := by decide

end Tcg2
